import Mathlib

/-!
Verification of the GDAX REST client (`cryptofeed/rest/gdax.py`) against its
natural-language specification.  The Python source is shallowly embedded:
Python dicts become association lists of `String × PyVal`, exceptions become
`Except PyErr`, and the blocking HTTP transport is abstracted as a `script`
assigning an outcome (connection error, timeout, or a response) to each
attempt.  Python name-resolution failures (`NameError` / `UnboundLocalError`)
are modelled explicitly because the source relies on several names that are
unbound in the scope where they are read.
-/

/-- Python values that appear in the JSON payloads handled by the client. -/
inductive PyVal where
| str (s : String)
| int (n : Int)
| bool (b : Bool)
| pyNone
deriving DecidableEq

/-- Python exceptions raised by the code paths under verification.
`nameError n` covers both `NameError` and its subclass `UnboundLocalError`
for the unbound name `n`; `httpError st` is the `requests.HTTPError` raised
by `Response.raise_for_status` for status `st`. -/
inductive PyErr where
| nameError (n : String)
| keyError (k : String)
| typeError
| httpError (status : Nat)
| jsonDecodeError
| binasciiError
| unicodeEncodeError
| timeoutError
| connectionError
deriving DecidableEq

set_option maxRecDepth 20000

/-- A Python `dict` with string keys, as an insertion-ordered association list. -/
def Dict := List (String × PyVal)
deriving DecidableEq

/-- Membership-respecting lookup: first binding of key `k`. -/
def dlookup : Dict → String → Option PyVal
| [], _ => none
| (k', v') :: rest, k => if k' = k then some v' else dlookup rest k

/-- `d[k]` — raises `KeyError` when the key is absent. -/
def dget (d : Dict) (k : String) : Except PyErr PyVal :=
  match dlookup d k with
  | some v => Except.ok v
  | none => Except.error (PyErr.keyError k)

/-- `k in d`. -/
def dmem (d : Dict) (k : String) : Bool := (dlookup d k).isSome

/-- `d[k] = v` — overwrites in place, appends new keys at the end
(Python dicts preserve insertion order). -/
def dset : Dict → String → PyVal → Dict
| [], k, v => [(k, v)]
| (k', v') :: rest, k, v =>
  if k' = k then (k, v) :: rest else (k', v') :: dset rest k v

/-! ## Request dispatcher: `Gdax._make_request` (gdax.py lines 39-94)

The transport layer (`requests.get/post/delete`) is abstracted as a `script`
giving the outcome of the `i`-th attempt.  All call sites in the source use
method "GET", "POST" or "DELETE", so exactly one `requests` call runs per
iteration of the `while True:` loop.

Crucial source facts, re-checked against gdax.py:
* `_make_request(self, method, endpoint, header, body=None)` has **no**
  `retry` or `retry_wait` parameter, and neither name is bound at module
  level.  Inside the `except` handlers, `retry -= 1` makes `retry` a local
  variable of the function, so the read in `if retry is not None:` raises
  `UnboundLocalError` (a `NameError`) — before `sleep(retry_wait)` and
  before any `continue` can run.
* On a response, statuses 400 / 401 / 403 / 404 / 500 are logged and then
  `resp.raise_for_status()` is called; any other status `!= 200` is also
  logged and `raise_for_status()` is called, but `raise_for_status` raises
  only for statuses in `[400, 600)`, so e.g. a 201 falls through to
  `return resp.json()`.
-/

/-- Outcome of one transport attempt: `requests.*` raises
`ConnectionError`, raises a timeout, or yields a response with a status
code and a parsed JSON body (`none` when the body is not valid JSON). -/
inductive TransportOutcome where
| conn_error
| timeout
| response (status : Nat) (json : Option PyVal)
deriving DecidableEq

/-- `requests.Response.raise_for_status`: raises `HTTPError` exactly for
client-error (4xx) and server-error (5xx) status codes. -/
def raise_for_status (st : Nat) : Except PyErr Unit :=
  if 400 ≤ st ∧ st < 600 then Except.error (PyErr.httpError st) else Except.ok ()

/-- The status-code `if/elif` chain of `_make_request` (lines 76-92): each
branch logs and then calls `raise_for_status`; when no branch raises,
control reaches `return resp.json()`. -/
def status_checks (st : Nat) : Except PyErr Unit :=
  if st = 400 then raise_for_status st
  else if st = 401 ∨ st = 403 ∨ st = 404 then raise_for_status st
  else if st = 500 then raise_for_status st
  else if st ≠ 200 then raise_for_status st
  else Except.ok ()

/-- `resp.json()`: the parsed body, or a decode error when the body is not JSON. -/
def resp_json : Option PyVal → Except PyErr PyVal
| some v => Except.ok v
| none => Except.error PyErr.jsonDecodeError

/-- `return resp.json()` guarded by the status checks (lines 76-94). -/
def handle_response (st : Nat) (j : Option PyVal) : Except PyErr PyVal :=
  match status_checks st with
  | Except.error e => Except.error e
  | Except.ok _ => resp_json j

/-- Result of one iteration of the `while True:` loop body. -/
inductive LoopStep where
| done (r : Except PyErr PyVal)
| again

/-- One iteration of the dispatcher loop.  Both `except` handlers read the
unbound local `retry`, so a transport failure ends the call with a
name-resolution error; `.again` (the `continue` statements, lines 60 and 69)
is unreachable in the source as written. -/
def make_request_iter (o : TransportOutcome) : LoopStep :=
  match o with
  | TransportOutcome.conn_error => LoopStep.done (Except.error (PyErr.nameError "retry"))
  | TransportOutcome.timeout => LoopStep.done (Except.error (PyErr.nameError "retry"))
  | TransportOutcome.response st j => LoopStep.done (handle_response st j)

/-- The `while True:` loop, fuelled; `i` counts attempts already made.
Returns `some (attempts, result)`; the fuel is never exhausted for positive
fuel because every iteration is `.done`. -/
def make_request_loop (script : Nat → TransportOutcome) : Nat → Nat → Option (Nat × Except PyErr PyVal)
| _, 0 => none
| i, fuel + 1 =>
  match make_request_iter (script i) with
  | LoopStep.done r => some (i + 1, r)
  | LoopStep.again => make_request_loop script (i + 1) fuel

/-- `_make_request` on a given transport script: number of attempts made and
the final outcome. -/
def make_request (script : Nat → TransportOutcome) (fuel : Nat) : Option (Nat × Except PyErr PyVal) :=
  make_request_loop script 0 fuel

/-! ## Normalization: `Gdax._trade_normalization` (gdax.py lines 240-260)

The dict literal building `trade_data` evaluates its values in order, so the
first absent key among `created_at`, `product_id`, `side`, `size`, `price`
raises `KeyError`.  In the order-shaped branch the source reads
`trade_data["fill_fees"]` (and likewise the four following keys) from the
dict under construction — not from `trade` — which raises `KeyError`
because `trade_data` holds no such key at that point.
-/

/-- `self.ID` — the feed identifier constant `GDAX` imported from
`cryptofeed.feeds` (external collaborator). -/
def gdax_ID : PyVal := PyVal.str "GDAX"

/-- `_trade_normalization(self, trade)` — one positional argument. -/
def trade_normalization (trade : Dict) : Except PyErr Dict := do
  let v_timestamp ← dget trade "created_at"
  let v_pair ← dget trade "product_id"
  let v_side ← dget trade "side"
  let v_amount ← dget trade "size"
  let v_price ← dget trade "price"
  let trade_data : Dict :=
    [("timestamp", v_timestamp), ("pair", v_pair), ("feed", gdax_ID),
     ("side", v_side), ("amount", v_amount), ("price", v_price)]
  if dmem trade "order_id" then
    let v ← dget trade "order_id"
    return dset trade_data "id" v
  else
    let trade_data := dset trade_data "id" (← dget trade "id")
    let trade_data := dset trade_data "type" (← dget trade "type")
    let trade_data := dset trade_data "fill_fees" (← dget trade_data "fill_fees")
    let trade_data := dset trade_data "filled_size" (← dget trade_data "filled_size")
    let trade_data := dset trade_data "executed_value" (← dget trade_data "executed_value")
    let trade_data := dset trade_data "status" (← dget trade_data "status")
    let trade_data := dset trade_data "settled" (← dget trade_data "settled")
    return trade_data

/-- A positional argument in a Python call of `_trade_normalization`:
the call at gdax.py line 120 passes the optional symbol string and a record. -/
inductive PyArg where
| sym (s : Option String)
| record (d : Dict)

/-- Python-level call of the bound method `self._trade_normalization` with an
explicit positional-argument list.  `def _trade_normalization(self, trade)`
accepts exactly one positional argument besides `self`, so any other arity
raises `TypeError`; a non-dict single argument would fail on its first
subscription, which is also a `TypeError` in this model. -/
def trade_normalization_call : List PyArg → Except PyErr Dict
| [PyArg.record t] => trade_normalization t
| [PyArg.sym _] => Except.error PyErr.typeError
| _ => Except.error PyErr.typeError

/-! ## Fills pipeline: `Gdax._get_fills` (lines 97-121) and `fills` (181-198)

`fills(symbol, start, end, retry, retry_wait)` forwards to
`_get_fills(symbol=symbol, retry=retry, retry_wait=retry_wait,
start_date=start, end_date=end)`; `retry`/`retry_wait` are accepted and then
silently dropped (`_make_request` is called without them).  We model the
processing of the parsed 200-response body `data`.

Source facts, re-checked against gdax.py:
* Line 114 reads `datetime.strptime(...)`, but the module imports
  `from datetime import datetime as dt` (line 3): the name `datetime` is
  unbound, so the first loop iteration of the date-filter branch raises
  `NameError` — the branch is only entered when `data` is non-empty, so it
  always raises.  (We model calls whose `start_date` is a well-formed
  timestamp string, so `pd.Timestamp(start_date)` on line 111 succeeds.)
* Line 120 calls `self._trade_normalization(symbol, x)` with two positional
  arguments.
-/

/-- Lines 106-118: the `if data == []` warning branch (data unchanged) and
the date-filter branch, which is entered only when both bounds are supplied
and then raises `NameError` on the unbound name `datetime` at its first
loop iteration. -/
def fills_filter_stage (data : List Dict) (start_date end_date : Option String) :
    Except PyErr (List Dict) :=
  if data = [] then Except.ok data
  else if start_date.isSome && end_date.isSome then
    Except.error (PyErr.nameError "datetime")
  else Except.ok data

/-- Line 120: `data = list(map(lambda x: self._trade_normalization(symbol, x), data))`.
`list(map(...))` evaluates the lambda on the entries in order and propagates
the first exception, i.e. `mapM` over `Except`. -/
def fills_map_stage (symbol : Option String) (data : List Dict) : Except PyErr (List Dict) :=
  data.mapM (fun x => trade_normalization_call [PyArg.sym symbol, PyArg.record x])

/-- `fills(symbol, start, end, ...)` after a 200 response whose parsed body is
`data`: `_get_fills` translates `symbol` through the external
`pair_std_to_exchange` collaborator `tr` (line 100), then runs the filter
stage and the normalization map. -/
def get_fills_after_200 (tr : String → String) (symbol : Option String)
    (data : List Dict) (start_date end_date : Option String) : Except PyErr (List Dict) := do
  let symbol := symbol.map tr
  let data ← fills_filter_stage data start_date end_date
  fills_map_stage symbol data

/-! ## Order-listing endpoint: `Gdax._get_orders` (gdax.py lines 124-147)

The query string is built by ad-hoc concatenation guarded by Python's
substring test `'status' in endpoint`.  Source facts, re-checked:
* First status value: `'{}?status={}'`; every later one: `'{}&status{}'`
  — note the missing `=` in the second format string (line 134).
* For `product_id` the branches are inverted relative to the claim: when a
  status parameter is already present the code appends `'?product_id={}'`
  (line 139), and `'&product_id={}'` otherwise (line 141).
-/

/-- `pat.isPrefixOf hay` on character lists, written out. -/
def startsWithChars : List Char → List Char → Bool
| _, [] => true
| [], _ :: _ => false
| c :: cs, p :: ps => c = p && startsWithChars cs ps

/-- Substring occurrence of `pat` in `hay` on character lists. -/
def containsChars (pat : List Char) : List Char → Bool
| [] => startsWithChars [] pat
| c :: rest => startsWithChars (c :: rest) pat || containsChars pat rest

/-- Python's substring test `pat in hay` for strings. -/
def strContains (hay pat : String) : Bool := containsChars pat.data hay.data

/-- Endpoint construction of `_get_orders` from the request `body`'s
optional status list and optional product id; `tr` is the external
`pair_std_to_exchange` collaborator applied to `body['product_id']`
(line 137). -/
def get_orders_endpoint (tr : String → String) (statuses : Option (List String))
    (product_id : Option String) : String :=
  let endpoint := "/orders"
  let endpoint :=
    match statuses with
    | none => endpoint
    | some ss => ss.foldl (fun ep status =>
        if strContains ep "status" = false then ep ++ "?status=" ++ status
        else ep ++ "&status" ++ status) endpoint
  match product_id with
  | none => endpoint
  | some pid =>
    if strContains endpoint "status" = true then endpoint ++ "?product_id=" ++ tr pid
    else endpoint ++ "&product_id=" ++ tr pid

/-! ## Cancel: `Gdax._delete_order` (lines 172-178) and `cancel_orders` (222-223)

`_delete_order` builds the endpoint and then evaluates
`self._generate_signature(endpoint, "DELETE", body=json.dumps(body))`.
Python evaluates the argument `json.dumps(body)` first; the name `body` is
bound nowhere in the function's scope (nor at module level), so this raises
`NameError` before `_generate_signature` — and a fortiori before
`_make_request` — can run.  Were that name bound, the call on line 178 would
read another unbound name, `headers` (the signature result is bound to
`header`).  We model the local scope explicitly.
-/

/-- An HTTP request as issued by `_make_request`, for tracing whether any
request was made. -/
structure HttpCall where
  method : String
  endpoint : String
deriving DecidableEq

/-- Python name lookup in an explicit scope; unbound names raise `NameError`. -/
def name_lookup (scope : Dict) (n : String) : Except PyErr PyVal :=
  match dlookup scope n with
  | some v => Except.ok v
  | none => Except.error (PyErr.nameError n)

/-- `_delete_order(order_id=None)`: returns the HTTP calls issued and the
outcome.  The local scope at the failing call holds exactly `order_id` and
`endpoint`. -/
def delete_order (order_id : Option String) : List HttpCall × Except PyErr Unit :=
  let endpoint := "/orders"
  let endpoint :=
    match order_id with
    | some oid => endpoint ++ "/" ++ oid
    | none => endpoint
  let scope : Dict :=
    [("order_id", match order_id with | some s => PyVal.str s | none => PyVal.pyNone),
     ("endpoint", PyVal.str endpoint)]
  match name_lookup scope "body" with
  | Except.error e => ([], Except.error e)
  | Except.ok _ =>
    match name_lookup scope "headers" with
    | Except.error e => ([], Except.error e)
    | Except.ok _ => ([HttpCall.mk "DELETE" endpoint], Except.ok ())

/-- `cancel_orders(order_id)` — forwards to `_delete_order` (line 223). -/
def cancel_orders (order_id : Option String) : List HttpCall × Except PyErr Unit :=
  delete_order order_id

/-! ## Signer: `Gdax._generate_signature` (gdax.py lines 23-36)

`hashlib.sha256`, `hmac.new` and `base64` are embedded as executable
functions on byte lists (`List Nat`, each element < 256); 32-bit words are
`Nat` reduced modulo `2 ^ 32`.  Known-answer theorems below check the
embedding against published SHA-256 / HMAC / base64 test vectors.
-/

/-- Reduce to a 32-bit word. -/
def w32 (n : Nat) : Nat := n % 4294967296

/-- 32-bit modular addition. -/
def wadd (a b : Nat) : Nat := w32 (a + b)

/-- Right-rotation of a 32-bit word by `n` places. -/
def rotr (n x : Nat) : Nat := w32 (Nat.lor (Nat.shiftRight x n) (Nat.shiftLeft x (32 - n)))

/-- Logical right shift. -/
def shr (n x : Nat) : Nat := Nat.shiftRight x n

/-- Bitwise complement within 32 bits (valid for `a < 2 ^ 32`). -/
def bnot32 (a : Nat) : Nat := 4294967295 - a

/-- SHA-256 Σ₀. -/
def bigSigma0 (x : Nat) : Nat := Nat.xor (rotr 2 x) (Nat.xor (rotr 13 x) (rotr 22 x))

/-- SHA-256 Σ₁. -/
def bigSigma1 (x : Nat) : Nat := Nat.xor (rotr 6 x) (Nat.xor (rotr 11 x) (rotr 25 x))

/-- SHA-256 σ₀. -/
def smallSigma0 (x : Nat) : Nat := Nat.xor (rotr 7 x) (Nat.xor (rotr 18 x) (shr 3 x))

/-- SHA-256 σ₁. -/
def smallSigma1 (x : Nat) : Nat := Nat.xor (rotr 17 x) (Nat.xor (rotr 19 x) (shr 10 x))

/-- SHA-256 Ch. -/
def sha_ch (e f g : Nat) : Nat := Nat.xor (Nat.land e f) (Nat.land (bnot32 e) g)

/-- SHA-256 Maj. -/
def sha_maj (a b c : Nat) : Nat :=
  Nat.xor (Nat.land a b) (Nat.xor (Nat.land a c) (Nat.land b c))

/-- The 64 SHA-256 round constants. -/
def sha_K : List Nat :=
  [1116352408, 1899447441, 3049323471, 3921009573, 961987163, 1508970993,
   2453635748, 2870763221, 3624381080, 310598401, 607225278, 1426881987,
   1925078388, 2162078206, 2614888103, 3248222580, 3835390401, 4022224774,
   264347078, 604807628, 770255983, 1249150122, 1555081692, 1996064986,
   2554220882, 2821834349, 2952996808, 3210313671, 3336571891, 3584528711,
   113926993, 338241895, 666307205, 773529912, 1294757372, 1396182291,
   1695183700, 1986661051, 2177026350, 2456956037, 2730485921, 2820302411,
   3259730800, 3345764771, 3516065817, 3600352804, 4094571909, 275423344,
   430227734, 506948616, 659060556, 883997877, 958139571, 1322822218,
   1537002063, 1747873779, 1955562222, 2024104815, 2227730452, 2361852424,
   2428436474, 2756734187, 3204031479, 3329325298]

/-- The SHA-256 initial hash value. -/
def sha_H0 : List Nat :=
  [1779033703, 3144134277, 1013904242, 2773480762,
   1359893119, 2600822924, 528734635, 1541459225]

/-- Extend a 16-word block to the 64-word message schedule (push `fuel` words). -/
def sha_buildW (w : Array Nat) : Nat → Array Nat
| 0 => w
| fuel + 1 =>
  let t := w.size
  let wt := wadd (smallSigma1 (w.getD (t - 2) 0))
            (wadd (w.getD (t - 7) 0)
             (wadd (smallSigma0 (w.getD (t - 15) 0)) (w.getD (t - 16) 0)))
  sha_buildW (w.push wt) fuel

/-- One SHA-256 compression round on the state `[a,b,c,d,e,f,g,h]`. -/
def sha_round (wt kt : Nat) : List Nat → List Nat
| [a, b, c, d, e, f, g, h] =>
  let t1 := wadd h (wadd (bigSigma1 e) (wadd (sha_ch e f g) (wadd kt wt)))
  let t2 := wadd (bigSigma0 a) (sha_maj a b c)
  [wadd t1 t2, a, b, c, wadd d t1, e, f, g]
| s => s

/-- Compress one 16-word block into the running hash. -/
def sha_compress (h : List Nat) (block : List Nat) : List Nat :=
  let w := sha_buildW block.toArray 48
  let s := (List.range 64).foldl (fun s t => sha_round (w.getD t 0) (sha_K.getD t 0) s) h
  List.zipWith wadd h s

/-- Big-endian bytes of `n`, `width` bytes wide. -/
def natToBytesBE (n width : Nat) : List Nat :=
  (List.range width).map (fun i => Nat.shiftRight n (8 * (width - 1 - i)) % 256)

/-- Group bytes into big-endian 32-bit words. -/
def bytesToWords : List Nat → List Nat
| b0 :: b1 :: b2 :: b3 :: rest => (((b0 * 256 + b1) * 256 + b2) * 256 + b3) :: bytesToWords rest
| _ => []

/-- SHA-256 padding: `0x80`, zeros to 56 mod 64, then the 64-bit bit length. -/
def sha_pad (msg : List Nat) : List Nat :=
  let len := msg.length
  let zeros := (119 - len % 64) % 64
  msg ++ 0x80 :: List.replicate zeros 0 ++ natToBytesBE (8 * len) 8

/-- Split into 64-byte chunks (fuel: at least the list length). -/
def chunk64 : List Nat → Nat → List (List Nat)
| [], _ => []
| _ :: _, 0 => []
| l, fuel + 1 => l.take 64 :: chunk64 (l.drop 64) fuel

/-- SHA-256 of a byte list: the 32-byte digest. -/
def sha256 (msg : List Nat) : List Nat :=
  let padded := sha_pad msg
  let blocks := (chunk64 padded padded.length).map bytesToWords
  let hfinal := blocks.foldl sha_compress sha_H0
  (hfinal.map (fun w => natToBytesBE w 4)).flatten

/-- `hmac.new(key, msg, hashlib.sha256).digest()`. -/
def hmacSha256 (key msg : List Nat) : List Nat :=
  let key := if 64 < key.length then sha256 key else key
  let key := key ++ List.replicate (64 - key.length) 0
  let ipad := key.map (fun b => Nat.xor b 0x36)
  let opad := key.map (fun b => Nat.xor b 0x5c)
  sha256 (opad ++ sha256 (ipad ++ msg))

/-- The base64 alphabet. -/
def b64chars : List Char :=
  "ABCDEFGHIJKLMNOPQRSTUVWXYZabcdefghijklmnopqrstuvwxyz0123456789+/".data

/-- Character for a sextet value. -/
def b64char (n : Nat) : Char := b64chars.getD n 'A'

/-- Sextet value of an alphabet character, `none` for non-alphabet input. -/
def b64val (c : Char) : Option Nat := b64chars.findIdx? (fun x => x == c)

/-- Base64-encode, three input bytes per four output characters, with
`=` padding on the final partial group. -/
def b64encodeChunks : List Nat → List Char
| b0 :: b1 :: b2 :: rest =>
  let n := (b0 * 256 + b1) * 256 + b2
  b64char (n / 262144 % 64) :: b64char (n / 4096 % 64) ::
    b64char (n / 64 % 64) :: b64char (n % 64) :: b64encodeChunks rest
| [b0, b1] =>
  let n := (b0 * 256 + b1) * 4
  [b64char (n / 4096 % 64), b64char (n / 64 % 64), b64char (n % 64), '=']
| [b0] =>
  let n := b0 * 16
  [b64char (n / 64 % 64), b64char (n % 64), '=', '=']
| [] => []

/-- `base64.b64encode(bytes).decode('utf-8')`. -/
def b64encode (bytes : List Nat) : String := String.mk (b64encodeChunks bytes)

/-- Decode groups of four base64 characters; `=` padding is accepted only on
the final group, and a trailing incomplete group raises `binascii.Error`. -/
def b64decodeChars : List Char → Except PyErr (List Nat)
| [] => Except.ok []
| c0 :: c1 :: c2 :: c3 :: rest =>
  match b64val c0, b64val c1 with
  | some v0, some v1 =>
    if c3 = '=' then
      if rest = [] then
        if c2 = '=' then Except.ok [(v0 * 64 + v1) / 16]
        else
          match b64val c2 with
          | some v2 =>
            let n := (v0 * 64 + v1) * 64 + v2
            Except.ok [n / 1024, n / 4 % 256]
          | none => Except.error PyErr.binasciiError
      else Except.error PyErr.binasciiError
    else
      match b64val c2, b64val c3 with
      | some v2, some v3 => do
        let tail ← b64decodeChars rest
        let n := ((v0 * 64 + v1) * 64 + v2) * 64 + v3
        Except.ok (n / 65536 :: n / 256 % 256 :: n % 256 :: tail)
      | _, _ => Except.error PyErr.binasciiError
  | _, _ => Except.error PyErr.binasciiError
| _ => Except.error PyErr.binasciiError

/-- `base64.b64decode(s)`: Python's decoder first discards characters outside
the alphabet/padding, then decodes four-character groups. -/
def b64decode (s : String) : Except PyErr (List Nat) :=
  b64decodeChars (s.data.filter (fun c => c = '=' || (b64val c).isSome))

/-- `s.encode('ascii')`: the byte list, or `UnicodeEncodeError` if any
character is outside ASCII. -/
def encode_ascii (s : String) : Except PyErr (List Nat) :=
  if s.data.all (fun c => c.toNat < 128) then Except.ok (s.data.map Char.toNat)
  else Except.error PyErr.unicodeEncodeError

/-- The credentials held by the client (supplied at construction by the
external base `API` class). -/
structure Credentials where
  key_id : String
  key_secret : String
  key_passphrase : String

/-- `_generate_signature(endpoint, method, body)` at clock reading `ts`
(`timestamp = str(time.time())`, line 24): builds
`message = ''.join([timestamp, method, endpoint, body])`, base64-decodes the
secret, HMAC-SHA256s the ASCII bytes of the message, base64-encodes the
digest, and packages the header dict (lines 25-36). -/
def generate_signature (cred : Credentials) (endpoint method body ts : String) :
    Except PyErr Dict := do
  let message := String.join [ts, method, endpoint, body]
  let hmac_key ← b64decode cred.key_secret
  let msg_bytes ← encode_ascii message
  let signature_b64 := b64encode (hmacSha256 hmac_key msg_bytes)
  return [("CB-ACCESS-KEY", PyVal.str cred.key_id),
          ("CB-ACCESS-SIGN", PyVal.str signature_b64),
          ("CB-ACCESS-TIMESTAMP", PyVal.str ts),
          ("CB-ACCESS-PASSPHRASE", PyVal.str cred.key_passphrase),
          ("Content-Type", PyVal.str "Application/JSON")]

/-! Known-answer tests for the cryptographic embedding (FIPS 180-4 examples,
RFC 4231 test case 2, RFC 4648 examples). -/

/-- SHA-256 of the empty message. -/
theorem sha256_kat_empty :
    sha256 [] =
      [227, 176, 196, 66, 152, 252, 28, 20, 154, 251, 244, 200, 153, 111, 185, 36,
       39, 174, 65, 228, 100, 155, 147, 76, 164, 149, 153, 27, 120, 82, 184, 85] := by
  rfl

/-- SHA-256 of `"abc"`. -/
theorem sha256_kat_abc :
    sha256 [97, 98, 99] =
      [186, 120, 22, 191, 143, 1, 207, 234, 65, 65, 64, 222, 93, 174, 34, 35,
       176, 3, 97, 163, 150, 23, 122, 156, 180, 16, 255, 97, 242, 0, 21, 173] := by
  rfl

/-- SHA-256 of 120 `'a'` bytes — exercises the two-block path. -/
theorem sha256_kat_two_blocks :
    sha256 (List.replicate 120 97) =
      [47, 61, 51, 84, 50, 199, 11, 88, 10, 240, 232, 225, 179, 103, 74, 124,
       2, 13, 104, 58, 165, 247, 58, 170, 237, 253, 197, 90, 249, 4, 194, 28] := by
  rfl

/-- HMAC-SHA256, RFC 4231 test case 2 (key `"Jefe"`,
data `"what do ya want for nothing?"`). -/
theorem hmacSha256_kat_rfc4231 :
    hmacSha256 [74, 101, 102, 101]
      [119, 104, 97, 116, 32, 100, 111, 32, 121, 97, 32, 119, 97, 110, 116, 32,
       102, 111, 114, 32, 110, 111, 116, 104, 105, 110, 103, 63] =
      [91, 220, 193, 70, 191, 96, 117, 78, 106, 4, 36, 38, 8, 149, 117, 199,
       90, 0, 63, 8, 157, 39, 57, 131, 157, 236, 88, 185, 100, 236, 56, 67] := by
  rfl

/-- Base64 encoding examples. -/
theorem b64encode_kat : b64encode [97, 98, 99] = "YWJj" ∧ b64encode [97, 98] = "YWI=" := by
  constructor <;> rfl

/-- Base64 decoding example, and round trip with the encoder. -/
theorem b64decode_kat :
    b64decode "a2V5" = Except.ok [107, 101, 121] ∧
    b64decode (b64encode [107, 101, 121]) = Except.ok [107, 101, 121] := by
  constructor <;> rfl

/-! ## Dispatcher theorems -/

/-- The status `if/elif` chain of `_make_request` raises `HTTPError st`
exactly for statuses in `[400, 600)` and otherwise falls through. -/
theorem status_checks_eq (st : Nat) :
    status_checks st =
      if 400 ≤ st ∧ st < 600 then Except.error (PyErr.httpError st) else Except.ok () := by
  unfold status_checks raise_for_status
  split_ifs <;> first | rfl | omega

/-- Claim C1 (code bug): with a transport-level failure on the first attempt,
`_make_request` makes exactly one attempt and raises a name-resolution error
for the unbound `retry` — it has no retry-budget parameter at all (its callers
accept `retry`/`retry_wait` but never forward them), so no budget `N` can
produce `N + 1` attempts. -/
theorem make_request_transport_nameError_eval :
    make_request (fun _ => TransportOutcome.conn_error) 5 =
      some (1, Except.error (PyErr.nameError "retry")) := by
  rfl

/-- Claim C2 (counterexample): a 201 response — a status code other than
200 — does not raise: `raise_for_status` is a no-op below 400, and the
dispatcher returns the parsed JSON body. -/
theorem make_request_201_cex :
    make_request (fun _ => TransportOutcome.response 201 (some (PyVal.str "created"))) 5 =
      some (1, Except.ok (PyVal.str "created")) ∧
    (Except.ok (PyVal.str "created") : Except PyErr PyVal) ≠
      Except.error (PyErr.httpError 201) := by
  refine ⟨rfl, ?_⟩
  intro h
  cases h

/-- Claim C2 (amended): every HTTP response ends the dispatcher after exactly
one attempt — no retry for any status.  A status in `[400, 600)` (in
particular 404) raises `HTTPError` immediately; any status outside that
range, 200 or not, yields the parsed JSON body. -/
theorem make_request_status_policy (st : Nat) (v : PyVal) (fuel : Nat) (hf : 0 < fuel) :
    make_request (fun _ => TransportOutcome.response st (some v)) fuel =
      some (1, if 400 ≤ st ∧ st < 600 then Except.error (PyErr.httpError st)
               else Except.ok v) := by
  obtain ⟨f, rfl⟩ : ∃ f, fuel = f + 1 := ⟨fuel - 1, by omega⟩
  show make_request_loop _ 0 (f + 1) = _
  simp only [make_request_loop, make_request_iter]
  unfold handle_response
  rw [status_checks_eq]
  split_ifs <;> rfl

/-- Witness for `make_request_status_policy` at status 404. -/
theorem make_request_status_policy_witness :
    0 < 1 ∧
    make_request (fun _ => TransportOutcome.response 404 (some (PyVal.str "x"))) 1 =
      some (1, if 400 ≤ 404 ∧ 404 < 600 then Except.error (PyErr.httpError 404)
               else Except.ok (PyVal.str "x")) :=
  ⟨Nat.one_pos, make_request_status_policy 404 (PyVal.str "x") 1 Nat.one_pos⟩

/-- Claim C8 (counterexample): on a timeout with no retry budget supplied
(none can be: `_make_request` has no such parameter), the dispatcher raises
the name-resolution error for `retry` — it does not propagate the transport
failure itself. -/
theorem make_request_timeout_cex :
    make_request (fun _ => TransportOutcome.timeout) 5 =
      some (1, Except.error (PyErr.nameError "retry")) ∧
    (Except.error (PyErr.nameError "retry") : Except PyErr PyVal) ≠
      Except.error PyErr.timeoutError := by
  refine ⟨rfl, ?_⟩
  intro h
  cases h

/-- Claim C8 (amended): on any transport-level failure (connection error or
timeout) the dispatcher stops after exactly one attempt with a
name-resolution error for the unbound name `retry`; the transport failure is
neither retried nor re-raised. -/
theorem make_request_no_budget (script : Nat → TransportOutcome) (fuel : Nat)
    (hf : 0 < fuel)
    (h : script 0 = TransportOutcome.conn_error ∨ script 0 = TransportOutcome.timeout) :
    make_request script fuel = some (1, Except.error (PyErr.nameError "retry")) := by
  obtain ⟨f, rfl⟩ : ∃ f, fuel = f + 1 := ⟨fuel - 1, by omega⟩
  show make_request_loop _ 0 (f + 1) = _
  rcases h with h | h <;> simp [make_request_loop, make_request_iter, h]

/-- Witness for `make_request_no_budget` on a connection-error script. -/
theorem make_request_no_budget_witness :
    0 < 3 ∧
    ((fun _ => TransportOutcome.conn_error) 0 = TransportOutcome.conn_error ∨
     (fun _ => TransportOutcome.conn_error) 0 = TransportOutcome.timeout) ∧
    make_request (fun _ => TransportOutcome.conn_error) 3 =
      some (1, Except.error (PyErr.nameError "retry")) :=
  ⟨by decide, Or.inl rfl,
   make_request_no_budget (fun _ => TransportOutcome.conn_error) 3 (by decide) (Or.inl rfl)⟩

/-! ## Fills and normalization theorems -/

/-- The fill-shaped record from the `fills` docstring (gdax.py lines 185-196). -/
def fillRec74 : Dict :=
  [("trade_id", PyVal.int 74), ("product_id", PyVal.str "BTC-USD"),
   ("price", PyVal.str "10.00"), ("size", PyVal.str "0.01"),
   ("order_id", PyVal.str "d50ec984-77a8-460a-b958-66f114b0de9b"),
   ("created_at", PyVal.str "2014-11-07T22:19:28.578544Z"),
   ("liquidity", PyVal.str "T"), ("fee", PyVal.str "0.00025"),
   ("settled", PyVal.bool true), ("side", PyVal.str "buy")]

/-- An order-shaped record (no `order_id`; separate `id`/`type` plus the
order-specific fields), as returned by the exchange's order endpoints. -/
def orderRec : Dict :=
  [("id", PyVal.str "d0c5340b-6d6c-49d9-b567-48c4bfca13d2"),
   ("price", PyVal.str "0.10000000"), ("size", PyVal.str "0.01000000"),
   ("product_id", PyVal.str "BTC-USD"), ("side", PyVal.str "buy"),
   ("type", PyVal.str "limit"), ("created_at", PyVal.str "2016-12-08T20:02:28.53864Z"),
   ("fill_fees", PyVal.str "0.0000000000000000"), ("filled_size", PyVal.str "0.00000000"),
   ("executed_value", PyVal.str "0.0000000000000000"), ("status", PyVal.str "open"),
   ("settled", PyVal.bool false)]

/-- Claim C5 (code bug): on an order-shaped record `_trade_normalization`
raises `KeyError 'fill_fees'` — the source reads `trade_data["fill_fees"]`
(the dict under construction) instead of the raw record — while the
fill-shaped branch works, producing the base fields plus `id` only. -/
theorem trade_normalization_branches_eval :
    trade_normalization orderRec = Except.error (PyErr.keyError "fill_fees") ∧
    trade_normalization fillRec74 =
      Except.ok
        [("timestamp", PyVal.str "2014-11-07T22:19:28.578544Z"),
         ("pair", PyVal.str "BTC-USD"), ("feed", gdax_ID), ("side", PyVal.str "buy"),
         ("amount", PyVal.str "0.01"), ("price", PyVal.str "10.00"),
         ("id", PyVal.str "d50ec984-77a8-460a-b958-66f114b0de9b")] := by
  constructor <;> rfl

/-- Claim C3 (code bug): with both date bounds supplied and a non-empty
fetched list, the date-filter loop raises `NameError` on the unbound name
`datetime` instead of filtering; with no fetched records the result is
empty as the claim states. -/
theorem fills_filter_nameError_eval :
    fills_filter_stage [fillRec74] (some "2014-11-01") (some "2014-12-01") =
      Except.error (PyErr.nameError "datetime") ∧
    get_fills_after_200 (fun p => p) none [] (some "2014-11-01") (some "2014-12-01") =
      Except.ok [] := by
  constructor <;> rfl

/-- Claim C4 (code bug): a successful (status 200) fills fetch returning the
docstring's fill-shaped record does not produce a normalized record —
line 120 calls `self._trade_normalization(symbol, x)` with two positional
arguments, so the call raises `TypeError`. -/
theorem fills_fill_record_typeError_eval :
    get_fills_after_200 (fun p => p) none [fillRec74] none none =
      Except.error PyErr.typeError := by
  rfl

/-- Claim C10: when exactly one of the two date bounds is supplied, the
date-filter branch is skipped (it requires both to be non-`None`), and the
full fetched list is handed unfiltered to the normalization map. -/
theorem fills_single_bound_no_filter (tr : String → String) (symbol : Option String)
    (data : List Dict) (start_date end_date : Option String)
    (h : (start_date.isSome ∧ end_date = none) ∨ (start_date = none ∧ end_date.isSome)) :
    get_fills_after_200 tr symbol data start_date end_date =
      fills_map_stage (symbol.map tr) data := by
  have hfilter : fills_filter_stage data start_date end_date = Except.ok data := by
    unfold fills_filter_stage
    rcases h with ⟨h1, h2⟩ | ⟨h1, h2⟩ <;>
      rcases data with _ | ⟨d, ds⟩ <;> simp [h1, h2]
  unfold get_fills_after_200
  rw [hfilter]
  rfl

/-- Witness for `fills_single_bound_no_filter`: only a start date supplied. -/
theorem fills_single_bound_no_filter_witness :
    (((some "2014-11-01" : Option String).isSome ∧ (none : Option String) = none) ∨
     ((some "2014-11-01" : Option String) = none ∧ (none : Option String).isSome)) ∧
    get_fills_after_200 (fun p => p) none [fillRec74] (some "2014-11-01") none =
      fills_map_stage none [fillRec74] :=
  ⟨Or.inl ⟨rfl, rfl⟩,
   fills_single_bound_no_filter (fun p => p) none [fillRec74] (some "2014-11-01") none
     (Or.inl ⟨rfl, rfl⟩)⟩

/-! ## Order-listing endpoint theorems -/

/-- The empty pattern is a prefix of every haystack. -/
theorem startsWithChars_nil (hay : List Char) : startsWithChars hay [] = true := by
  cases hay <;> rfl

/-- A prefix occurrence survives extending the haystack on the right. -/
theorem startsWithChars_append (pat : List Char) : ∀ hay b : List Char,
    startsWithChars hay pat = true → startsWithChars (hay ++ b) pat = true := by
  induction pat with
  | nil => intro hay b _h; exact startsWithChars_nil _
  | cons p ps ih =>
    intro hay b h
    cases hay with
    | nil => cases h
    | cons c cs =>
      simp only [startsWithChars, List.cons_append] at h ⊢
      rw [Bool.and_eq_true] at h ⊢
      exact ⟨h.1, ih cs b h.2⟩

/-- The empty pattern occurs in every haystack. -/
theorem containsChars_nil (l : List Char) : containsChars [] l = true := by
  cases l <;> rfl

/-- A substring occurrence survives extending the haystack on the right. -/
theorem containsChars_append_left (pat : List Char) : ∀ a b : List Char,
    containsChars pat a = true → containsChars pat (a ++ b) = true := by
  intro a
  induction a with
  | nil =>
    intro b h
    cases pat with
    | nil => exact containsChars_nil b
    | cons p ps => cases h
  | cons c rest ih =>
    intro b h
    rw [containsChars, Bool.or_eq_true] at h
    rw [List.cons_append, containsChars, Bool.or_eq_true]
    rcases h with h | h
    · exact Or.inl (startsWithChars_append pat (c :: rest) b h)
    · exact Or.inr (ih b h)

/-- Python's substring test survives appending to the haystack. -/
theorem strContains_append (a b pat : String) (h : strContains a pat = true) :
    strContains (a ++ b) pat = true := by
  unfold strContains at h ⊢
  exact containsChars_append_left pat.data a.data b.data h

/-- Claim C6 (counterexample): for `status=['open','pending']` and
`product_id='BTC-USD'`, the endpoint actually built is
`/orders?status=open&statuspending?product_id=BTC-USD` — the second status
value is appended without `=` and the product id gets a `?` rather than `&`
— which differs from the claim's first-`?`-then-`&`, `key=value` form. -/
theorem get_orders_endpoint_example_cex :
    get_orders_endpoint (fun p => p) (some ["open", "pending"]) (some "BTC-USD") =
      "/orders?status=open&statuspending?product_id=BTC-USD" ∧
    "/orders?status=open&statuspending?product_id=BTC-USD" ≠
      "/orders?status=open&status=pending&product_id=BTC-USD" := by
  constructor
  · rfl
  · decide

/-- String append is associative. -/
theorem str_append_assoc (a b c : String) : a ++ b ++ c = a ++ (b ++ c) := by
  cases a with
  | mk da =>
    cases b with
    | mk db =>
      cases c with
      | mk dc =>
        show String.mk (da ++ db ++ dc) = String.mk (da ++ (db ++ dc))
        rw [List.append_assoc]

/-- Rendering of every status value after the first, as amended claim C6
describes it: `&status` immediately followed by the value, with no `=`. -/
def render_statuses : List String → String
| [] => ""
| s :: ss => "&status" ++ s ++ render_statuses ss

/-- The endpoint amended claim C6 describes, written from the amended
claim's words (to be compared with the source-derived
`get_orders_endpoint`): the first status value is appended as `?status=`
followed by the value; each later status value as `&status` immediately
followed by the value (no `=`); the product id as `?product_id=` when a
status parameter is already present and as `&product_id=` when it would be
the first parameter; with no parameters the endpoint stays `/orders`. -/
def orders_query_amended (tr : String → String) (statuses : Option (List String))
    (product_id : Option String) : String :=
  let base :=
    match statuses with
    | some (s0 :: rest) => "/orders?status=" ++ s0 ++ render_statuses rest
    | some [] => "/orders"
    | none => "/orders"
  match product_id with
  | none => base
  | some p =>
    match statuses with
    | some (_ :: _) => base ++ "?product_id=" ++ tr p
    | some [] => base ++ "&product_id=" ++ tr p
    | none => base ++ "&product_id=" ++ tr p

/-- Once the endpoint under construction mentions `status`, the status loop
of `_get_orders` only ever appends `&status` followed by the value. -/
theorem orders_fold_eq (rest : List String) : ∀ ep : String,
    strContains ep "status" = true →
    rest.foldl (fun ep status =>
        if strContains ep "status" = false then ep ++ "?status=" ++ status
        else ep ++ "&status" ++ status) ep = ep ++ render_statuses rest := by
  induction rest with
  | nil => intro ep _h; simp [render_statuses, String.append_empty]
  | cons s ss ih =>
    intro ep h
    rw [List.foldl_cons]
    rw [if_neg (by simp [h])]
    rw [ih (ep ++ "&status" ++ s)
      (strContains_append _ s "status" (strContains_append ep "&status" "status" h))]
    rw [render_statuses]
    rw [str_append_assoc, str_append_assoc, str_append_assoc]

/-- The whole status loop of `_get_orders`, started from the bare
`/orders`: the first value gets `?status=`, every later one `&status`. -/
theorem orders_fold_from_start (s0 : String) (rest : List String) :
    (s0 :: rest).foldl (fun ep status =>
        if strContains ep "status" = false then ep ++ "?status=" ++ status
        else ep ++ "&status" ++ status) "/orders" =
      "/orders" ++ "?status=" ++ s0 ++ render_statuses rest := by
  rw [List.foldl_cons]
  show rest.foldl _ ("/orders" ++ "?status=" ++ s0) = _
  exact orders_fold_eq rest ("/orders" ++ "?status=" ++ s0)
    (strContains_append ("/orders" ++ "?status=") s0 "status" (by rfl))

/-- Claim C6 (amended): for every status list and optional product id, the
endpoint built by `_get_orders` is exactly the one the amended claim
describes — the first status as `?status=value`, each later status as
`&status` immediately followed by the value with no `=`, and the product id
prefixed `?` when a status parameter is already present and `&` when it is
the first parameter. -/
theorem get_orders_endpoint_joining (tr : String → String)
    (statuses : Option (List String)) (product_id : Option String) :
    get_orders_endpoint tr statuses product_id =
      orders_query_amended tr statuses product_id := by
  have hfalse : strContains "/orders" "status" = false := rfl
  rcases statuses with _ | ⟨_ | ⟨s0, rest⟩⟩
  · rcases product_id with _ | p <;>
      simp [get_orders_endpoint, orders_query_amended, hfalse]
  · rcases product_id with _ | p <;>
      simp [get_orders_endpoint, orders_query_amended, hfalse]
  · have h2 : strContains ("/orders" ++ "?status=" ++ s0 ++ render_statuses rest)
        "status" = true :=
      strContains_append ("/orders" ++ "?status=" ++ s0) (render_statuses rest) "status"
        (strContains_append ("/orders" ++ "?status=") s0 "status" (by rfl))
    rcases product_id with _ | p
    · simp only [get_orders_endpoint]
      rw [orders_fold_from_start s0 rest]
      simp [orders_query_amended, str_append_assoc]
    · simp only [get_orders_endpoint]
      rw [orders_fold_from_start s0 rest]
      rw [if_pos h2]
      simp [orders_query_amended, str_append_assoc]

/-! ## Cancel and signer theorems -/

/-- Claim C9: every call of `_delete_order` — and hence of `cancel_orders`,
which merely forwards to it — fails with a name-resolution error for the
unbound name `body` (read by `json.dumps(body)` on line 177) before any HTTP
request is issued, for any order id. -/
theorem delete_order_undefined_name (order_id : Option String) :
    delete_order order_id = ([], Except.error (PyErr.nameError "body")) ∧
    cancel_orders order_id = ([], Except.error (PyErr.nameError "body")) := by
  cases order_id <;> exact ⟨rfl, rfl⟩

/-- Claim C7: for every secret, method, endpoint and body, at a fixed
timestamp, `_generate_signature` deterministically returns exactly the
header set holding the raw key id, the passphrase, the timestamp, the fixed
content type, and the base64 encoding of the HMAC-SHA256 digest — keyed with
the base64-decoded secret — of the separator-free concatenation
`timestamp ++ method ++ endpoint ++ body`. -/
theorem generate_signature_spec (key_id key_secret passphrase endpoint method body ts : String)
    (key msg_bytes : List Nat)
    (hkey : b64decode key_secret = Except.ok key)
    (hmsg : encode_ascii (ts ++ method ++ endpoint ++ body) = Except.ok msg_bytes) :
    generate_signature ⟨key_id, key_secret, passphrase⟩ endpoint method body ts =
      Except.ok
        [("CB-ACCESS-KEY", PyVal.str key_id),
         ("CB-ACCESS-SIGN", PyVal.str (b64encode (hmacSha256 key msg_bytes))),
         ("CB-ACCESS-TIMESTAMP", PyVal.str ts),
         ("CB-ACCESS-PASSPHRASE", PyVal.str passphrase),
         ("Content-Type", PyVal.str "Application/JSON")] := by
  have hjoin : String.join [ts, method, endpoint, body] = ts ++ method ++ endpoint ++ body := by
    show ((("" ++ ts) ++ method) ++ endpoint) ++ body = _
    rw [String.empty_append]
  simp only [generate_signature, hjoin, hkey, hmsg]
  rfl

/-- Witness for `generate_signature_spec`: secret `"a2V5"` (base64 of
`"key"`), a GET of `/fills` with empty body at timestamp `"1.5"`. -/
theorem generate_signature_spec_witness :
    b64decode "a2V5" = Except.ok [107, 101, 121] ∧
    encode_ascii ("1.5" ++ "GET" ++ "/fills" ++ "") =
      Except.ok [49, 46, 53, 71, 69, 84, 47, 102, 105, 108, 108, 115] ∧
    generate_signature ⟨"mykeyid", "a2V5", "mypass"⟩ "/fills" "GET" "" "1.5" =
      Except.ok
        [("CB-ACCESS-KEY", PyVal.str "mykeyid"),
         ("CB-ACCESS-SIGN", PyVal.str (b64encode (hmacSha256 [107, 101, 121]
            [49, 46, 53, 71, 69, 84, 47, 102, 105, 108, 108, 115]))),
         ("CB-ACCESS-TIMESTAMP", PyVal.str "1.5"),
         ("CB-ACCESS-PASSPHRASE", PyVal.str "mypass"),
         ("Content-Type", PyVal.str "Application/JSON")] :=
  ⟨rfl, rfl, generate_signature_spec "mykeyid" "a2V5" "mypass" "/fills" "GET" "" "1.5"
      [107, 101, 121] [49, 46, 53, 71, 69, 84, 47, 102, 105, 108, 108, 115] rfl rfl⟩
